import Mathlib

/-!
Shallow embedding of the fleet digital-twin aggregation pipeline of
`src/app.py`: the batched stats fetcher `get_stats_for_multiple_vehicles`
(lines 232-274), the cursor-paginated maintenance fetcher
`get_all_vehicle_maintenance_data` (lines 277-323), the twin builder and
alert evaluator `process_vehicle_data` (lines 327-461), and the
module-level twin build loop (lines 564, 576-582), together with theorems
settling the specification claims about them.

Modelling conventions:
* JSON values the code inspects are modelled by small typed universes:
  `JId` for identifiers that may arrive as strings or integers, `PyVal`
  for field values that may be numeric, string, or null.
* Python dicts are modelled as association lists with first-match lookup
  (`alFind`) and replace-first insertion (`alInsert`), observationally a
  dict for every access the embedded code performs.
* Every HTTP request is abstracted by an environment function; a `none`
  response models a transport failure, i.e. a
  `requests.exceptions.RequestException` (network error, timeout, or a
  non-2xx status raised by `raise_for_status`).
* Python numerics are modelled by `ℚ`; `round(x, 2)` is modelled by
  `pyRound2`, round half to even at two decimal places.
* `datetime.now()` -- the `last_data_sync` field -- is wall-clock time and
  lies outside the embedding; the ISO-8601 reformatting of the location
  timestamp is abstracted as a parameter `parseTime : String → Option
  String`, where `none` models a `ValueError` from `fromisoformat` (the
  code then keeps the string verbatim). No claim inspects the reformatted
  value itself.
-/

/-- A JSON identifier value: the vendor may deliver a vehicle id as a JSON
string or as a JSON integer. `pyStr` is Python `str()` on it. -/
inductive JId where
  | istr (s : String)
  | inum (n : Int)
deriving DecidableEq

/-- Python `str()` applied to an id value (`str` of an int renders its
decimal digits, with a leading `-` when negative, exactly as `toString`). -/
def pyStr : JId → String
  | .istr s => s
  | .inum n => toString n

/-- Python `str(x)` for `x = d.get('id')` where the key may be absent:
`str(None)` is the string `"None"` (used at `src/app.py:564`). -/
def pyStrOpt : Option JId → String
  | none => "None"
  | some j => pyStr j

/-- A Python scalar value as stored in the per-vehicle maps: a float/int,
a string, or `None`.  `isinstance(v, (int, float))` holds only for `num`. -/
inductive PyVal where
  | num (q : ℚ)
  | str (s : String)
  | null
deriving DecidableEq

/-- Association-list lookup with first-match semantics; models Python
`dict.get` (dict keys are unique, so first match is the match). -/
def alFind {κ β : Type} [DecidableEq κ] : List (κ × β) → κ → Option β
  | [], _ => none
  | (k', v) :: rest, k => if k' = k then some v else alFind rest k

/-- Association-list insertion, replacing the first binding of the key if
present, appending otherwise; models Python `d[k] = v`. -/
def alInsert {κ β : Type} [DecidableEq κ] : List (κ × β) → κ → β → List (κ × β)
  | [], k, v => [(k, v)]
  | (k', v') :: rest, k, v =>
    if k' = k then (k, v) :: rest else (k', v') :: alInsert rest k v

/-- Python's slicing loop `for i in range(0, len(l), n): l[i:i+n]` as a
list of chunks (`src/app.py:213,240,245`). -/
def chunksOf {α : Type} (n : Nat) (l : List α) : List (List α) :=
  (List.range ((l.length + n - 1) / n)).map (fun i => (l.drop (i * n)).take n)

/-! ## Stats fetcher (`get_stats_for_multiple_vehicles`, src/app.py:232-274) -/

/-- A per-stat value in a stats response item: either a bare scalar or a
`value`-envelope object (the code unwraps the latter, line 265-268). -/
inductive SVal where
  | plain (v : PyVal)
  | envelope (v : PyVal)
deriving DecidableEq

/-- Unwrapping a stat value: `item[t]['value']` if the value is a dict
with a `value` key, else `item[t]` itself. -/
def SVal.unwrap : SVal → PyVal
  | .plain v => v
  | .envelope v => v

/-- One item of a stats response: an optional `id` field plus the
per-stat-type fields (`src/app.py:260-268`). -/
structure StatsItem where
  id : Option JId := none
  fields : List (String × SVal) := []
deriving DecidableEq

/-- The result map of the stats fetcher: vehicle id → stat type → value. -/
abbrev StatsMap := List (String × List (String × PyVal))

/-- The inner merge step for one stat type `t` of one response item
(`src/app.py:263-268`): if the item carries field `t`, store its unwrapped
value under `stats_map[s][t]`. -/
def mergeStatField (item : StatsItem) (s : String) (m : StatsMap) (t : String) : StatsMap :=
  match alFind item.fields t with
  | some sv => alInsert m s (alInsert ((alFind m s).getD []) t sv.unwrap)
  | none => m

/-- Merging one response item (`src/app.py:260-268`): the item's id must
be a string already present as a key of `stats_map` (Python `in` on a dict
compares keys by equality, so a numeric id never matches the string keys);
then every stat type of the current type batch present on the item is
stored. -/
def mergeStatsItem (batchTypes : List String) (m : StatsMap) (item : StatsItem) : StatsMap :=
  match item.id with
  | some (.istr s) =>
    if (alFind m s).isSome then batchTypes.foldl (mergeStatField item s) m else m
  | _ => m

/-- Merging one chunk response (`for item in data`, src/app.py:260). -/
def mergeStatsResponse (batchTypes : List String) (m : StatsMap) (items : List StatsItem) :
    StatsMap :=
  items.foldl (mergeStatsItem batchTypes) m

/-- The inner `for batch_of_types in stat_type_batches` loop inside the
`try` block (`src/app.py:249-268`) for one vehicle-id chunk. `envi j` is
the response of the request crossing this id chunk with the `j`-th
stat-type chunk; `none` is a transport failure, which raises and thereby
abandons the remaining type batches of this id chunk, keeping what was
merged before the failure (the `except` clause, line 270-272, continues
with the next id chunk). -/
def runTypeBatches (envi : Nat → Option (List StatsItem)) :
    List (List String) → Nat → StatsMap → StatsMap
  | [], _, m => m
  | b :: rest, j, m =>
    match envi j with
    | none => m
    | some items => runTypeBatches envi rest (j + 1) (mergeStatsResponse b m items)

/-- `get_stats_for_multiple_vehicles` (src/app.py:232-274): the map is
initialised with an empty inner dict for every requested id (line 236),
stat types are chunked by 4, vehicle ids by 100, and each id chunk runs
all its type-chunk requests inside one `try`.  `env i j` abstracts the
HTTP request for id chunk `i` and type chunk `j`. -/
def get_stats_for_multiple_vehicles (vehicle_ids : List String) (stat_types : List String)
    (env : Nat → Nat → Option (List StatsItem)) : StatsMap :=
  let init : StatsMap := vehicle_ids.map (fun v => (v, []))
  let typeBatches := chunksOf 4 stat_types
  (List.range (chunksOf 100 vehicle_ids).length).foldl
    (fun m i => runTypeBatches (env i) typeBatches 0 m) init

/-- The five stat types requested by the app (`src/app.py:162-168`). -/
def allStatTypes : List String :=
  ["engineCoolantTemperatureMilliC", "ambientAirTemperatureMilliC", "engineRpm",
   "obdEngineSeconds", "engineOilPressureKPa"]

/-! ## Maintenance fetcher (`get_all_vehicle_maintenance_data`, src/app.py:277-323) -/

/-- One diagnostic trouble code (`spnId`, `fmiId`, `occurrenceCount`
fields, each possibly absent). -/
structure DTC where
  spnId : Option Int := none
  fmiId : Option Int := none
  occurrenceCount : Option Int := none
deriving DecidableEq

/-- The `checkEngineLight` block (four optional boolean flags). -/
structure CheckLights where
  warningIsOn : Option Bool := none
  emissionsIsOn : Option Bool := none
  protectIsOn : Option Bool := none
  stopIsOn : Option Bool := none
deriving DecidableEq

/-- The `j1939` block of a maintenance item. -/
structure J1939 where
  checkEngineLight : Option CheckLights := none
  diagnosticTroubleCodes : Option (List DTC) := none
deriving DecidableEq

/-- One maintenance response item; `j1939 = none` models the field being
absent or JSON null (the code's `or` makes both equivalent, line 416). -/
structure MaintItem where
  id : Option JId := none
  j1939 : Option J1939 := none
deriving DecidableEq

/-- One page of the maintenance listing: items (the code reads
`vehicleMaintenance` or, when empty, `vehicles`; the two keys are
collapsed here) plus the pagination cursor. -/
structure MaintPage where
  items : List MaintItem := []
  endCursor : Option String := none
deriving DecidableEq

/-- Python truthiness of `pagination.get('endCursor')`: an absent cursor
or an empty string is falsy (`if not next_cursor`, src/app.py:316). -/
def cursorTruthy : Option String → Bool
  | none => false
  | some s => !s.isEmpty

/-- The per-page filtering loop (`src/app.py:306-310`): each item's id is
coerced with `str()` and matched against the working target set; matches
are recorded and removed from the working set. -/
def processPageItems : List MaintItem → List String → List (String × MaintItem) →
    List String × List (String × MaintItem)
  | [], targets, acc => (targets, acc)
  | it :: rest, targets, acc =>
    let vid := pyStrOpt it.id
    if vid ∈ targets then processPageItems rest (targets.erase vid) (acc ++ [(vid, it)])
    else processPageItems rest targets acc

/-- The `while True` pagination loop of the maintenance fetcher
(`src/app.py:290-321`).  `server 0` is the next page request (`none` =
transport failure: the code returns the empty map, line 319-321);
recursion shifts the server by one page.  `fuel` bounds the recursion;
`none` means fuel ran out (the real loop would still be running). -/
def getAllMaintAux : (Nat → Option MaintPage) → List String → List (String × MaintItem) →
    Nat → Option (List (String × MaintItem))
  | _, _, _, 0 => none
  | server, targets, acc, fuel + 1 =>
    match server 0 with
    | none => some []
    | some page =>
      let pr := processPageItems page.items targets acc
      if cursorTruthy page.endCursor = false ∨ pr.1 = [] then some pr.2
      else getAllMaintAux (fun k => server (k + 1)) pr.1 pr.2 fuel

/-- `get_all_vehicle_maintenance_data` (src/app.py:277-323): the target
ids are put in a set (`set(target_vehicle_ids)`, modelled by `dedup`),
then the pages are scanned until the working set empties or the cursor
runs out, with any transport failure returning the empty map. -/
def get_all_vehicle_maintenance_data (server : Nat → Option MaintPage)
    (target_vehicle_ids : List String) (fuel : Nat) : Option (List (String × MaintItem)) :=
  getAllMaintAux server target_vehicle_ids.dedup [] fuel

/-- Observation function: how many page requests the maintenance loop
issues (the failing request, if any, counts as issued).  Mirrors
`getAllMaintAux` step for step. -/
def maintRequestsAux : (Nat → Option MaintPage) → List String → Nat → Option Nat
  | _, _, 0 => none
  | server, targets, fuel + 1 =>
    match server 0 with
    | none => some 1
    | some page =>
      let ts := (processPageItems page.items targets []).1
      if cursorTruthy page.endCursor = false ∨ ts = [] then some 1
      else (maintRequestsAux (fun k => server (k + 1)) ts fuel).map (· + 1)

/-- Request count of a full maintenance fetch. -/
def maintRequestCount (server : Nat → Option MaintPage) (target_vehicle_ids : List String)
    (fuel : Nat) : Option Nat :=
  maintRequestsAux server target_vehicle_ids.dedup fuel

/-- A server that successfully serves the pages of `ps` in order and
fails (transport error) on any request past them. -/
def serverOfPages (ps : List MaintPage) : Nat → Option MaintPage := fun k => ps[k]?

/-- The working target set left after scanning the given pages in order. -/
def remAux (targets : List String) (ps : List MaintPage) : List String :=
  ps.foldl (fun ts p => (processPageItems p.items ts []).1) targets

/-! ## Twin builder / alert evaluator (`process_vehicle_data`, src/app.py:327-461) -/

/-- Rounding a rational to the nearest integer, ties to even, as Python's
`round` does. -/
def roundHalfEven (q : ℚ) : ℤ :=
  if q - ⌊q⌋ < 1 / 2 then ⌊q⌋
  else if 1 / 2 < q - ⌊q⌋ then ⌊q⌋ + 1
  else if ⌊q⌋ % 2 = 0 then ⌊q⌋ else ⌊q⌋ + 1

/-- `round(q, 2)` as used throughout the normalizer. -/
def pyRound2 (q : ℚ) : ℚ := (roundHalfEven (q * 100) : ℚ) / 100

/-- One roster entry (`vehicle_details`): the fields the twin builder
reads, each possibly absent. -/
structure VehicleDetails where
  id : Option JId := none
  name : Option PyVal := none
  make : Option PyVal := none
  model : Option PyVal := none
  year : Option PyVal := none
  licensePlate : Option PyVal := none
deriving DecidableEq

/-- The `reverseGeo` block of a location record. -/
structure RGeo where
  formattedLocation : Option PyVal := none
deriving DecidableEq

/-- One location record (`loc['location']`), fields possibly absent. -/
structure LocData where
  latitude : Option PyVal := none
  longitude : Option PyVal := none
  speed : Option PyVal := none
  reverseGeo : Option RGeo := none
  time : Option String := none
deriving DecidableEq

/-- The digital twin record built by `process_vehicle_data`
(src/app.py:331-354).  `last_data_sync` (wall-clock `datetime.now()`) is
outside the embedding. -/
structure Gemelo where
  vehicle_id : String
  vehicle_name : PyVal
  make : PyVal
  model : PyVal
  year : PyVal
  license_plate : PyVal
  latitude : PyVal
  longitude : PyVal
  speed_mph : PyVal
  current_address : PyVal
  gps_odometer_meters : PyVal
  location_updated_at : PyVal
  engine_hours : PyVal
  fuel_perc_remaining : PyVal
  engine_oil_pressure_kpa : PyVal
  engine_coolant_temperature_c : PyVal
  engine_rpm : PyVal
  ambient_air_temperature_c : PyVal
  engine_check_light_warning : Bool
  engine_check_light_emissions : Bool
  engine_check_light_protect : Bool
  engine_check_light_stop : Bool
  diagnostic_trouble_codes : List DTC
  status_alert : String
  alert_color : String
deriving DecidableEq

/-- `str(vehicle_details.get('id', ''))` (src/app.py:329): the twin's key. -/
def rosterKey (d : VehicleDetails) : String := pyStr (d.id.getD (.istr ""))

/-- `vehicle_ids = [str(v.get('id')) for v in vehicle_details_list]`
(src/app.py:564): the id list handed to the dynamic fetchers. -/
def moduleVehicleIds (roster : List VehicleDetails) : List String :=
  roster.map (fun v => pyStrOpt v.id)

/-- `code.get('spnId', 'N/A')` rendered into the alert f-string. -/
def optIntStr : Option Int → String
  | none => "N/A"
  | some n => toString n

/-- The rendering of one DTC inside the alert clause (src/app.py:438). -/
def renderDTC (c : DTC) : String :=
  "SPN: " ++ optIntStr c.spnId ++ " (FMI: " ++ optIntStr c.fmiId ++ ")"

/-- The engine-fault clause built from a non-empty DTC list
(src/app.py:434-439). -/
def dtcAlertClause (dtcs : List DTC) : String :=
  "Fallas de motor (DTCs: " ++ String.intercalate "; " (dtcs.map renderDTC) ++ ")"

/-- The individual check-engine-light labels collected in source order
(src/app.py:441-449). -/
def lightClauses (w e p s : Bool) : List String :=
  (if w then ["Advertencia (Warning)"] else []) ++
  (if e then ["Emisiones (Emissions)"] else []) ++
  (if p then ["Protección (Protect)"] else []) ++
  (if s then ["Detener (Stop)"] else [])

/-- The check-engine-light clause, added only when some light is on
(src/app.py:451-452). -/
def lightAlertPart (w e p s : Bool) : List String :=
  if (lightClauses w e p s).isEmpty then []
  else ["Luz de Check Engine ON (" ++ String.intercalate ", " (lightClauses w e p s) ++ ")"]

/-- The `alerts` list (src/app.py:431-452): engine-fault clause when the
DTC list is non-empty, then the light clause when any light is on. -/
def buildAlerts (dtcs : List DTC) (w e p s : Bool) : List String :=
  (if dtcs.isEmpty then [] else [dtcAlertClause dtcs]) ++ lightAlertPart w e p s

/-- The final alert evaluation (src/app.py:454-459): any alert clause
yields the `"ALERTA: "`-prefixed message in red, otherwise the
normal-operation status in green.  (The `elif` guard against
`'OFFLINE o SIN DATOS'` is dead: the status is initialised to
`'OPERANDO NORMALMENTE'` and never set to the offline value.) -/
def alertOf (dtcs : List DTC) (w e p s : Bool) : String × String :=
  let alerts := buildAlerts dtcs w e p s
  if alerts.isEmpty then ("OPERANDO NORMALMENTE", "green")
  else ("ALERTA: " ++ String.intercalate "; " alerts, "red")

/-- The four light flags and the DTC list extracted from the maintenance
lookup (src/app.py:413-429): a missing record leaves the defaults; a
present record defaults a null/absent `j1939` to an empty object, an
absent `checkEngineLight` to an empty object, each flag to `False`, and a
missing (or non-list) DTC field to an empty list. -/
structure MaintFields where
  w : Bool
  e : Bool
  p : Bool
  s : Bool
  dtcs : List DTC
deriving DecidableEq

/-- Extraction of `MaintFields` from the maintenance map lookup. -/
def maintFields : Option MaintItem → MaintFields
  | none => ⟨false, false, false, false, []⟩
  | some md =>
    let j := md.j1939.getD {}
    let cel := j.checkEngineLight.getD {}
    ⟨cel.warningIsOn.getD false, cel.emissionsIsOn.getD false, cel.protectIsOn.getD false,
     cel.stopIsOn.getD false, j.diagnosticTroubleCodes.getD []⟩

/-- `vehicle_locations.get(vehicle_id_str)` (src/app.py:359): the
locations map is keyed by the raw `loc['id']` JSON value (never coerced,
src/app.py:224), and is looked up here with the string id. -/
def locLookup (locations : List (JId × LocData)) (s : String) : Option LocData :=
  alFind locations (.istr s)

/-- `d.get(key, 'N/A')` for a twin field. -/
def pvGetD (v : Option PyVal) : PyVal := v.getD (.str "N/A")

/-- `process_vehicle_data` (src/app.py:327-461): builds one digital twin
from the roster entry and the three dynamic maps.  `parseTime` abstracts
`datetime.fromisoformat(t.replace('Z', '+00:00')).strftime(...)`, with
`none` modelling the `ValueError` branch that keeps the string verbatim. -/
def process_vehicle_data (parseTime : String → Option String)
    (vehicle_details : VehicleDetails) (vehicle_locations : List (JId × LocData))
    (vehicle_stats : StatsMap) (vehicle_maintenance_data : List (String × MaintItem)) :
    Gemelo :=
  { vehicle_id := rosterKey vehicle_details
    vehicle_name := pvGetD vehicle_details.name
    make := pvGetD vehicle_details.make
    model := pvGetD vehicle_details.model
    year := pvGetD vehicle_details.year
    license_plate := pvGetD vehicle_details.licensePlate
    latitude :=
      match locLookup vehicle_locations (rosterKey vehicle_details) with
      | none => .str "N/A"
      | some l => pvGetD l.latitude
    longitude :=
      match locLookup vehicle_locations (rosterKey vehicle_details) with
      | none => .str "N/A"
      | some l => pvGetD l.longitude
    speed_mph :=
      match locLookup vehicle_locations (rosterKey vehicle_details) with
      | none => .str "N/A"
      | some l =>
        match l.speed with
        | some (.num q) => .num (pyRound2 q)
        | _ => .str "N/A"
    current_address :=
      match locLookup vehicle_locations (rosterKey vehicle_details) with
      | none => .str "N/A"
      | some l => pvGetD (l.reverseGeo.getD {}).formattedLocation
    gps_odometer_meters := .str "N/A"
    location_updated_at :=
      match locLookup vehicle_locations (rosterKey vehicle_details) with
      | none => .str "N/A"
      | some l =>
        match l.time with
        | none => .str "N/A"
        | some t => if t = "N/A" then .str "N/A" else .str ((parseTime t).getD t)
    engine_hours :=
      match alFind ((alFind vehicle_stats (rosterKey vehicle_details)).getD [])
          "obdEngineSeconds" with
      | some (.num q) => .num (pyRound2 (q / 3600))
      | _ => .str "N/A"
    fuel_perc_remaining := .str "N/A"
    engine_oil_pressure_kpa :=
      match alFind ((alFind vehicle_stats (rosterKey vehicle_details)).getD [])
          "engineOilPressureKPa" with
      | some (.num q) => .num (pyRound2 q)
      | _ => .str "N/A"
    engine_coolant_temperature_c :=
      match alFind ((alFind vehicle_stats (rosterKey vehicle_details)).getD [])
          "engineCoolantTemperatureMilliC" with
      | some (.num q) => .num (pyRound2 (q / 1000))
      | _ => .str "N/A"
    engine_rpm :=
      match alFind ((alFind vehicle_stats (rosterKey vehicle_details)).getD [])
          "engineRpm" with
      | some (.num q) => .num q
      | _ => .str "N/A"
    ambient_air_temperature_c :=
      match alFind ((alFind vehicle_stats (rosterKey vehicle_details)).getD [])
          "ambientAirTemperatureMilliC" with
      | some (.num q) => .num (pyRound2 (q / 1000))
      | _ => .str "N/A"
    engine_check_light_warning :=
      (maintFields (alFind vehicle_maintenance_data (rosterKey vehicle_details))).w
    engine_check_light_emissions :=
      (maintFields (alFind vehicle_maintenance_data (rosterKey vehicle_details))).e
    engine_check_light_protect :=
      (maintFields (alFind vehicle_maintenance_data (rosterKey vehicle_details))).p
    engine_check_light_stop :=
      (maintFields (alFind vehicle_maintenance_data (rosterKey vehicle_details))).s
    diagnostic_trouble_codes :=
      (maintFields (alFind vehicle_maintenance_data (rosterKey vehicle_details))).dtcs
    status_alert :=
      (alertOf (maintFields (alFind vehicle_maintenance_data (rosterKey vehicle_details))).dtcs
        (maintFields (alFind vehicle_maintenance_data (rosterKey vehicle_details))).w
        (maintFields (alFind vehicle_maintenance_data (rosterKey vehicle_details))).e
        (maintFields (alFind vehicle_maintenance_data (rosterKey vehicle_details))).p
        (maintFields (alFind vehicle_maintenance_data (rosterKey vehicle_details))).s).1
    alert_color :=
      (alertOf (maintFields (alFind vehicle_maintenance_data (rosterKey vehicle_details))).dtcs
        (maintFields (alFind vehicle_maintenance_data (rosterKey vehicle_details))).w
        (maintFields (alFind vehicle_maintenance_data (rosterKey vehicle_details))).e
        (maintFields (alFind vehicle_maintenance_data (rosterKey vehicle_details))).p
        (maintFields (alFind vehicle_maintenance_data (rosterKey vehicle_details))).s).2 }

/-- The refresh-cycle build loop (`src/app.py:577-580`), one twin per
roster entry, keyed by `gemelo['vehicle_id']`. -/
def buildTwinsAux (parseTime : String → Option String) (locations : List (JId × LocData))
    (stats : StatsMap) (maint : List (String × MaintItem)) :
    List VehicleDetails → List (String × Gemelo) → List (String × Gemelo)
  | [], m => m
  | d :: rest, m =>
    let g := process_vehicle_data parseTime d locations stats maint
    buildTwinsAux parseTime locations stats maint rest (alInsert m g.vehicle_id g)

/-- `temp_gemelos_map` after the refresh cycle (src/app.py:576-582). -/
def buildTwins (parseTime : String → Option String) (roster : List VehicleDetails)
    (locations : List (JId × LocData)) (stats : StatsMap)
    (maint : List (String × MaintItem)) : List (String × Gemelo) :=
  buildTwinsAux parseTime locations stats maint roster []

/-! ## Generic association-list and fold lemmas -/

lemma alFind_isSome_iff {κ β : Type} [DecidableEq κ] (m : List (κ × β)) (k : κ) :
    (alFind m k).isSome ↔ k ∈ m.map Prod.fst := by
  induction m with
  | nil => simp [alFind]
  | cons p rest ih =>
    obtain ⟨k', v⟩ := p
    by_cases h : k' = k
    · subst h
      simp [alFind]
    · simp only [alFind, if_neg h, List.map_cons, List.mem_cons, ih]
      constructor
      · intro hm
        exact Or.inr hm
      · rintro (hh | hm)
        · exact absurd hh.symm h
        · exact hm

lemma alInsert_map_fst {κ β : Type} [DecidableEq κ] (m : List (κ × β)) (k : κ) (v : β) :
    (alInsert m k v).map Prod.fst =
      if k ∈ m.map Prod.fst then m.map Prod.fst else m.map Prod.fst ++ [k] := by
  induction m with
  | nil => simp [alInsert]
  | cons p rest ih =>
    obtain ⟨k', v'⟩ := p
    by_cases h : k' = k
    · subst h
      simp [alInsert]
    · simp only [alInsert, if_neg h, List.map_cons, ih]
      by_cases hk : k ∈ rest.map Prod.fst
      · rw [if_pos hk, if_pos (List.mem_cons.mpr (Or.inr hk))]
      · rw [if_neg hk,
          if_neg (fun hc => (List.mem_cons.mp hc).elim (fun h1 => h h1.symm) hk)]
        simp

lemma alInsert_fst_of_mem {κ β : Type} [DecidableEq κ] {m : List (κ × β)} {k : κ} {v : β}
    (h : k ∈ m.map Prod.fst) : (alInsert m k v).map Prod.fst = m.map Prod.fst := by
  rw [alInsert_map_fst, if_pos h]

lemma mem_alInsert_fst {κ β : Type} [DecidableEq κ] (m : List (κ × β)) (k k₀ : κ) (v : β) :
    k₀ ∈ (alInsert m k v).map Prod.fst ↔ k₀ ∈ m.map Prod.fst ∨ k₀ = k := by
  rw [alInsert_map_fst]
  by_cases h : k ∈ m.map Prod.fst
  · rw [if_pos h]
    constructor
    · exact Or.inl
    · rintro (hm | rfl)
      · exact hm
      · exact h
  · rw [if_neg h]
    simp

lemma nodup_alInsert_fst {κ β : Type} [DecidableEq κ] {m : List (κ × β)} {k : κ} {v : β}
    (h : (m.map Prod.fst).Nodup) : ((alInsert m k v).map Prod.fst).Nodup := by
  rw [alInsert_map_fst]
  by_cases hk : k ∈ m.map Prod.fst
  · rwa [if_pos hk]
  · rw [if_neg hk]
    simp [List.nodup_append, h, hk]

lemma foldl_ext {α β : Type} (f g : β → α → β) :
    ∀ (l : List α) (m : β), (∀ a ∈ l, ∀ m', f m' a = g m' a) → l.foldl f m = l.foldl g m := by
  intro l
  induction l with
  | nil => intro m _; rfl
  | cons a rest ih =>
    intro m h
    rw [List.foldl_cons, List.foldl_cons, h a (by simp)]
    exact ih _ (fun b hb m' => h b (by simp [hb]) m')

lemma foldl_keys {α : Type} (f : StatsMap → α → StatsMap)
    (hf : ∀ m a, (f m a).map Prod.fst = m.map Prod.fst) :
    ∀ (l : List α) (m : StatsMap), (l.foldl f m).map Prod.fst = m.map Prod.fst := by
  intro l
  induction l with
  | nil => intro m; rfl
  | cons a rest ih =>
    intro m
    rw [List.foldl_cons, ih, hf]

/-! ## Key-set preservation of the stats merge -/

lemma mergeStatField_fst (it : StatsItem) (s : String) (m : StatsMap) (t : String)
    (h : s ∈ m.map Prod.fst) : (mergeStatField it s m t).map Prod.fst = m.map Prod.fst := by
  unfold mergeStatField
  cases alFind it.fields t with
  | none => rfl
  | some sv => exact alInsert_fst_of_mem h

lemma foldl_mergeStatField_fst (it : StatsItem) (s : String) :
    ∀ (ts : List String) (m : StatsMap), s ∈ m.map Prod.fst →
      (ts.foldl (mergeStatField it s) m).map Prod.fst = m.map Prod.fst := by
  intro ts
  induction ts with
  | nil => intro m _; rfl
  | cons t rest ih =>
    intro m h
    have h1 : (mergeStatField it s m t).map Prod.fst = m.map Prod.fst :=
      mergeStatField_fst it s m t h
    rw [List.foldl_cons, ih (mergeStatField it s m t) (by rw [h1]; exact h), h1]

lemma mergeStatsItem_fst (bt : List String) (m : StatsMap) (it : StatsItem) :
    (mergeStatsItem bt m it).map Prod.fst = m.map Prod.fst := by
  obtain ⟨oid, flds⟩ := it
  unfold mergeStatsItem
  cases oid with
  | none => rfl
  | some jid =>
    cases jid with
    | inum n => rfl
    | istr s =>
      dsimp only
      by_cases hs : (alFind m s).isSome
      · rw [if_pos hs]
        exact foldl_mergeStatField_fst _ s bt m ((alFind_isSome_iff m s).mp hs)
      · rw [if_neg hs]

lemma mergeStatsResponse_fst (bt : List String) (m : StatsMap) (items : List StatsItem) :
    (mergeStatsResponse bt m items).map Prod.fst = m.map Prod.fst :=
  foldl_keys (mergeStatsItem bt) (fun m' it => mergeStatsItem_fst bt m' it) items m

lemma runTypeBatches_fst (e : Nat → Option (List StatsItem)) :
    ∀ (bs : List (List String)) (j : Nat) (m : StatsMap),
      (runTypeBatches e bs j m).map Prod.fst = m.map Prod.fst := by
  intro bs
  induction bs with
  | nil => intro j m; rfl
  | cons b rest ih =>
    intro j m
    simp only [runTypeBatches]
    rcases e j with _ | its
    · rfl
    · rw [ih, mergeStatsResponse_fst]

lemma get_stats_fst (vehicle_ids stat_types : List String)
    (env : Nat → Nat → Option (List StatsItem)) :
    (get_stats_for_multiple_vehicles vehicle_ids stat_types env).map Prod.fst = vehicle_ids := by
  simp only [get_stats_for_multiple_vehicles]
  rw [foldl_keys _ (fun m a => runTypeBatches_fst (env a) _ 0 m)]
  simp [Function.comp_def]

lemma runTypeBatches_fail_first (e : Nat → Option (List StatsItem)) (he : e 0 = none)
    (bs : List (List String)) (m : StatsMap) : runTypeBatches e bs 0 m = m := by
  cases bs with
  | nil => rfl
  | cons b rest => simp [runTypeBatches, he]

lemma foldl_const {α β : Type} (f : β → α → β) (hf : ∀ m a, f m a = m) :
    ∀ (l : List α) (m : β), l.foldl f m = m := by
  intro l
  induction l with
  | nil => intro m; rfl
  | cons a rest ih =>
    intro m
    rw [List.foldl_cons, hf, ih]

lemma alFind_init_pairs (vehicle_ids : List String) (id : String) :
    alFind (vehicle_ids.map (fun v => (v, ([] : List (String × PyVal))))) id
      = if id ∈ vehicle_ids then some [] else none := by
  induction vehicle_ids with
  | nil => simp [alFind]
  | cons a rest ih =>
    by_cases h : a = id
    · subst h
      simp [alFind]
    · simp only [List.map_cons, alFind, if_neg h, ih, List.mem_cons]
      by_cases hm : id ∈ rest
      · rw [if_pos hm, if_pos (Or.inr hm)]
      · rw [if_neg hm, if_neg (fun hc => hc.elim (fun h1 => h h1.symm) hm)]

/-! ## Rounding evaluation lemmas -/

lemma roundHalfEven_of_lt (q : ℚ) (f : ℤ) (h1 : (f : ℚ) ≤ q) (h2 : q < f + 1)
    (h3 : q - f < 1 / 2) : roundHalfEven q = f := by
  have hf : ⌊q⌋ = f := Int.floor_eq_iff.mpr ⟨h1, h2⟩
  unfold roundHalfEven
  rw [hf, if_pos h3]

lemma roundHalfEven_half_even (q : ℚ) (f : ℤ) (h1 : (f : ℚ) ≤ q) (h2 : q < f + 1)
    (h3 : q - f = 1 / 2) (h4 : f % 2 = 0) : roundHalfEven q = f := by
  have hf : ⌊q⌋ = f := Int.floor_eq_iff.mpr ⟨h1, h2⟩
  unfold roundHalfEven
  rw [hf, h3, if_neg (by norm_num), if_neg (by norm_num), if_pos h4]

lemma pyRound2_of_lt (q : ℚ) (f : ℤ) (h1 : (f : ℚ) ≤ q * 100) (h2 : q * 100 < f + 1)
    (h3 : q * 100 - f < 1 / 2) : pyRound2 q = (f : ℚ) / 100 := by
  unfold pyRound2
  rw [roundHalfEven_of_lt _ f h1 h2 h3]

lemma pyRound2_half_even (q : ℚ) (f : ℤ) (h1 : (f : ℚ) ≤ q * 100) (h2 : q * 100 < f + 1)
    (h3 : q * 100 - f = 1 / 2) (h4 : f % 2 = 0) : pyRound2 q = (f : ℚ) / 100 := by
  unfold pyRound2
  rw [roundHalfEven_half_even _ f h1 h2 h3 h4]

/-! ## Skipping behaviour of the stats type-batch loop -/

lemma runTypeBatches_congr (e e' : Nat → Option (List StatsItem)) (h : ∀ b, e b = e' b) :
    ∀ (bs : List (List String)) (j : Nat) (m : StatsMap),
      runTypeBatches e bs j m = runTypeBatches e' bs j m := by
  intro bs
  induction bs with
  | nil => intro j m; rfl
  | cons b rest ih =>
    intro j m
    simp only [runTypeBatches]
    rw [← h j]
    rcases e j with _ | its
    · rfl
    · exact ih (j + 1) _

lemma runTypeBatches_stops (e e' : Nat → Option (List StatsItem)) (j : Nat)
    (hj : e j = none) (hagree : ∀ b, b ≤ j → e' b = e b) :
    ∀ (bs : List (List String)) (j0 : Nat) (m : StatsMap), j0 ≤ j →
      runTypeBatches e bs j0 m = runTypeBatches e' bs j0 m := by
  intro bs
  induction bs with
  | nil => intro j0 m _; rfl
  | cons b rest ih =>
    intro j0 m hj0
    simp only [runTypeBatches]
    rw [hagree j0 hj0]
    rcases hx : e j0 with _ | its
    · rfl
    · have hne : j0 ≠ j := by
        intro hh
        subst hh
        rw [hj] at hx
        exact Option.noConfusion hx
      exact ih (j0 + 1) _ (Nat.succ_le_of_lt (lt_of_le_of_ne hj0 hne))

/-- A stats response item delivering an oil-pressure reading for
vehicle `"A"`. -/
def cexItemA : StatsItem :=
  { id := some (.istr "A"), fields := [("engineOilPressureKPa", SVal.plain (.num 50))] }

/-- The environment of the C1 counterexample: the request crossing id
chunk 0 with stat-type chunk 0 fails at transport level, while the
request for id chunk 0 and stat-type chunk 1 would deliver an oil
pressure reading for vehicle `"A"`; every other request also fails. -/
def cexEnv : Nat → Nat → Option (List StatsItem) :=
  fun i j => if i = 0 ∧ j = 1 then some [cexItemA] else none

/-- C1 counterexample: the claim says every chunked sub-request of
`get_stats_for_multiple_vehicles` fails independently, so the results of
request (id chunk 0, type chunk 1) should appear in the returned map even
though request (id chunk 0, type chunk 0) failed.  They do not: the
`try` block wraps the whole loop over stat-type chunks of one id chunk,
so the failure of (0,0) abandons (0,1) and vehicle `"A"`'s inner map
stays empty instead of carrying the delivered oil-pressure value. -/
theorem stats_chunk_failure_not_independent_cex :
    cexEnv 0 0 = none
    ∧ cexEnv 0 1 = some [cexItemA]
    ∧ get_stats_for_multiple_vehicles ["A"] allStatTypes cexEnv = [("A", [])] :=
  ⟨rfl, rfl, rfl⟩

/-- C1 (amended): a transport failure of the chunk request (id chunk `i`,
type chunk `j`) is logged and skipped at the granularity of the id chunk:
the remaining stat-type chunk requests of id chunk `i` are abandoned
(their responses are never consulted), while the results merged before
the failure and the results of every other id chunk's requests appear in
the returned map exactly as they otherwise would.  Formally: if `env i j`
fails, the result does not depend on the responses of id chunk `i`
beyond index `j`, and agrees with any environment identical elsewhere. -/
theorem stats_chunk_failure_skips_rest_of_id_chunk
    (vehicle_ids stat_types : List String)
    (env env' : Nat → Nat → Option (List StatsItem)) (i j : Nat)
    (hfail : env i j = none)
    (hother : ∀ a b, a ≠ i → env' a b = env a b)
    (hsame : ∀ b, b ≤ j → env' i b = env i b) :
    get_stats_for_multiple_vehicles vehicle_ids stat_types env
      = get_stats_for_multiple_vehicles vehicle_ids stat_types env' := by
  simp only [get_stats_for_multiple_vehicles]
  refine foldl_ext _ _ _ _ (fun a _ m => ?_)
  by_cases ha : a = i
  · subst ha
    exact runTypeBatches_stops (env a) (env' a) j hfail (fun b hb => hsame b hb) _ 0 _
      (Nat.zero_le j)
  · exact runTypeBatches_congr (env a) (env' a) (fun b => (hother a b ha).symm) _ 0 _

/-- All-failing environment for the C1 witness. -/
def wEnv : Nat → Nat → Option (List StatsItem) := fun _ _ => none

/-- Environment differing from `wEnv` only on id chunk 0 past the failing
type-chunk index 0. -/
def wEnvAlt : Nat → Nat → Option (List StatsItem) :=
  fun a b => if a = 0 ∧ 1 ≤ b then some [cexItemA] else none

/-- C1 witness: the amended theorem applied at a concrete input. -/
theorem stats_chunk_failure_skips_rest_of_id_chunk_witness :
    get_stats_for_multiple_vehicles ["A"] allStatTypes wEnv
      = get_stats_for_multiple_vehicles ["A"] allStatTypes wEnvAlt :=
  stats_chunk_failure_skips_rest_of_id_chunk ["A"] allStatTypes wEnv wEnvAlt 0 0 rfl
    (fun a b ha => by simp [wEnv, wEnvAlt, ha])
    (fun b hb => by
      have hb0 : b = 0 := Nat.le_zero.mp hb
      subst hb0
      rfl)

/-- C9: the key set of the map returned by
`get_stats_for_multiple_vehicles` is exactly the input vehicle-id list
(so stats the API reports for foreign ids are discarded), and when every
request fails every requested id is still present with an empty inner
map. -/
theorem stats_map_keyset_equals_input (vehicle_ids stat_types : List String)
    (env : Nat → Nat → Option (List StatsItem)) (_hne : vehicle_ids ≠ []) :
    (∀ id : String,
        (alFind (get_stats_for_multiple_vehicles vehicle_ids stat_types env) id).isSome
          ↔ id ∈ vehicle_ids)
    ∧ ((∀ i j, env i j = none) → ∀ id ∈ vehicle_ids,
        alFind (get_stats_for_multiple_vehicles vehicle_ids stat_types env) id = some []) := by
  constructor
  · intro id
    rw [alFind_isSome_iff, get_stats_fst]
  · intro henv id hid
    have hres : get_stats_for_multiple_vehicles vehicle_ids stat_types env
        = vehicle_ids.map (fun v => (v, [])) := by
      simp only [get_stats_for_multiple_vehicles]
      exact foldl_const _ (fun m a => runTypeBatches_fail_first (env a) (henv a 0) _ m) _ _
    rw [hres, alFind_init_pairs, if_pos hid]

/-- C9 witness: the theorem applied at a concrete input. -/
theorem stats_map_keyset_equals_input_witness :
    ((alFind (get_stats_for_multiple_vehicles ["A"] allStatTypes (fun _ _ => none)) "A").isSome
        ↔ "A" ∈ ["A"])
    ∧ alFind (get_stats_for_multiple_vehicles ["A"] allStatTypes (fun _ _ => none)) "A"
        = some [] :=
  ⟨(stats_map_keyset_equals_input ["A"] allStatTypes (fun _ _ => none) (by decide)).1 "A",
   (stats_map_keyset_equals_input ["A"] allStatTypes (fun _ _ => none) (by decide)).2
     (fun _ _ => rfl) "A" (by decide)⟩

/-! ## Maintenance pagination lemmas -/

lemma processPageItems_fst_indep :
    ∀ (its : List MaintItem) (targets : List String)
      (acc acc' : List (String × MaintItem)),
      (processPageItems its targets acc).1 = (processPageItems its targets acc').1 := by
  intro its
  induction its with
  | nil => intro targets acc acc'; rfl
  | cons it rest ih =>
    intro targets acc acc'
    simp only [processPageItems]
    by_cases h : pyStrOpt it.id ∈ targets
    · rw [if_pos h, if_pos h]
      exact ih _ _ _
    · rw [if_neg h, if_neg h]
      exact ih _ _ _

lemma serverOfPages_shift (p : MaintPage) (ps : List MaintPage) :
    (fun k => serverOfPages (p :: ps) (k + 1)) = serverOfPages ps := by
  funext k
  simp [serverOfPages]

lemma maint_fail_aux :
    ∀ (ps : List MaintPage) (targets : List String) (acc : List (String × MaintItem))
      (fuel : Nat),
      (∀ p ∈ ps, cursorTruthy p.endCursor = true) →
      (∀ i, i ≤ ps.length → remAux targets (ps.take i) ≠ []) →
      ps.length < fuel →
      getAllMaintAux (serverOfPages ps) targets acc fuel = some [] := by
  intro ps
  induction ps with
  | nil =>
    intro targets acc fuel _ _ hf
    obtain ⟨f, rfl⟩ : ∃ f, fuel = f + 1 := ⟨fuel - 1, by omega⟩
    rfl
  | cons p rest ih =>
    intro targets acc fuel hc ht hf
    obtain ⟨f, rfl⟩ : ∃ f, fuel = f + 1 := ⟨fuel - 1, by omega⟩
    have hserver : serverOfPages (p :: rest) 0 = some p := by simp [serverOfPages]
    simp only [getAllMaintAux, hserver]
    have hcur : cursorTruthy p.endCursor = true := hc p (List.mem_cons_self p rest)
    have hrem1 : remAux targets ((p :: rest).take 1) ≠ [] := ht 1 (by simp)
    have hpr : (processPageItems p.items targets acc).1
        = (processPageItems p.items targets []).1 := processPageItems_fst_indep _ _ _ _
    have hne : (processPageItems p.items targets acc).1 ≠ [] := by
      rw [hpr]
      simpa [remAux] using hrem1
    rw [if_neg (by simp [hcur, hne])]
    rw [serverOfPages_shift]
    apply ih
    · exact fun q hq => hc q (List.mem_cons.mpr (Or.inr hq))
    · intro i hi
      have : remAux (processPageItems p.items targets acc).1 (rest.take i)
          = remAux targets ((p :: rest).take (i + 1)) := by
        simp [remAux, List.take_cons, hpr]
      rw [this]
      exact ht (i + 1) (by simpa using Nat.succ_le_succ hi)
    · simpa using Nat.lt_of_succ_lt_succ (by simpa using hf)

/-- C4: if any page request the maintenance pagination actually reaches
fails at the transport level, `get_all_vehicle_maintenance_data` returns
the empty map, discarding every record matched on the earlier pages.  The
pages of `ps` are served successfully; each carries a next cursor and
leaves the (deduplicated) working target set non-empty, so the loop
reaches the request following them, which fails. -/
theorem maintenance_failure_returns_empty (ps : List MaintPage) (targets : List String)
    (fuel : Nat)
    (hc : ∀ p ∈ ps, cursorTruthy p.endCursor = true)
    (ht : ∀ i, i ≤ ps.length → remAux targets.dedup (ps.take i) ≠ [])
    (hf : ps.length < fuel) :
    get_all_vehicle_maintenance_data (serverOfPages ps) targets fuel = some [] :=
  maint_fail_aux ps targets.dedup [] fuel hc ht hf

/-- Maintenance item and page fixtures for the concrete scenarios. -/
def itemA : MaintItem := { id := some (.istr "A") }

/-- Maintenance item for vehicle `"B"`. -/
def itemB : MaintItem := { id := some (.istr "B") }

/-- First page of the C5 scenario: vehicle `"A"` only, with a next cursor. -/
def pageA : MaintPage := { items := [itemA], endCursor := some "cursor1" }

/-- Second page of the C5 scenario: vehicle `"B"`, no further cursor. -/
def pageB : MaintPage := { items := [itemB], endCursor := none }

/-- A page containing both target vehicles and a next cursor. -/
def pageAB : MaintPage := { items := [itemA, itemB], endCursor := some "cursor1" }

/-- Page used by the C4 witness: matches `"A"` and has a next cursor. -/
def pageAcursor : MaintPage := { items := [itemA], endCursor := some "cursor2" }

/-- C4 witness: the theorem applied at a concrete input -- the first page
matches the record for `"A"`, the second request fails, and the matched
record is discarded. -/
theorem maintenance_failure_returns_empty_witness :
    get_all_vehicle_maintenance_data (serverOfPages [pageAcursor]) ["A", "B"] 3 = some [] :=
  maintenance_failure_returns_empty [pageAcursor] ["A", "B"] 3 (by decide)
    (fun i hi => by
      simp only [List.length_singleton] at hi
      interval_cases i
      · decide
      · decide)
    (by decide)

/-- C5: maintenance pagination stops as soon as the working set of
still-unmatched target ids becomes empty or the response carries no next
cursor, whichever comes first.  First scenario (the one of the claim):
targets `A`, `B`; page 1 contains only `A` and has a cursor, page 2
contains `B` and no cursor -- the fetch returns records for both and
issues exactly two page requests.  Second scenario: one page contains
both targets and still advertises a cursor -- the fetch stops after one
request because the working set emptied first. -/
theorem maintenance_pagination_early_stop :
    (get_all_vehicle_maintenance_data (serverOfPages [pageA, pageB]) ["A", "B"] 9
        = some [("A", itemA), ("B", itemB)]
      ∧ maintRequestCount (serverOfPages [pageA, pageB]) ["A", "B"] 9 = some 2)
    ∧ (get_all_vehicle_maintenance_data (serverOfPages [pageAB, pageB]) ["A", "B"] 9
        = some [("A", itemA), ("B", itemB)]
      ∧ maintRequestCount (serverOfPages [pageAB, pageB]) ["A", "B"] 9 = some 1) := by
  refine ⟨⟨?_, ?_⟩, ?_, ?_⟩ <;> decide

/-! ## Twin build loop lemmas -/

lemma process_vehicle_id (pt : String → Option String) (d : VehicleDetails)
    (L : List (JId × LocData)) (S : StatsMap) (M : List (String × MaintItem)) :
    (process_vehicle_data pt d L S M).vehicle_id = rosterKey d := rfl

lemma buildTwinsAux_mem (pt : String → Option String) (L : List (JId × LocData))
    (S : StatsMap) (M : List (String × MaintItem)) :
    ∀ (roster : List VehicleDetails) (m : List (String × Gemelo)) (k : String),
      k ∈ (buildTwinsAux pt L S M roster m).map Prod.fst
        ↔ k ∈ m.map Prod.fst ∨ k ∈ roster.map rosterKey := by
  intro roster
  induction roster with
  | nil =>
    intro m k
    simp [buildTwinsAux]
  | cons d rest ih =>
    intro m k
    simp only [buildTwinsAux, ih, mem_alInsert_fst, process_vehicle_id, List.map_cons,
      List.mem_cons]
    tauto

lemma buildTwinsAux_nodup (pt : String → Option String) (L : List (JId × LocData))
    (S : StatsMap) (M : List (String × MaintItem)) :
    ∀ (roster : List VehicleDetails) (m : List (String × Gemelo)),
      (m.map Prod.fst).Nodup → ((buildTwinsAux pt L S M roster m).map Prod.fst).Nodup := by
  intro roster
  induction roster with
  | nil => intro m h; exact h
  | cons d rest ih =>
    intro m h
    simp only [buildTwinsAux]
    exact ih _ (nodup_alInsert_fst h)

/-- C2: the twin mapping produced by one refresh cycle has no duplicate
keys and its key set is exactly the set of (stringified) vehicle ids of
the roster snapshot -- one entry per roster id, none for absent ids --
whatever the location, stats and maintenance maps contain. -/
theorem twin_map_keys_exactly_roster (pt : String → Option String)
    (roster : List VehicleDetails) (L : List (JId × LocData)) (S : StatsMap)
    (M : List (String × MaintItem)) :
    ((buildTwins pt roster L S M).map Prod.fst).Nodup
    ∧ ∀ k : String,
        k ∈ (buildTwins pt roster L S M).map Prod.fst ↔ k ∈ roster.map rosterKey := by
  constructor
  · exact buildTwinsAux_nodup pt L S M roster [] (by simp)
  · intro k
    simp only [buildTwins]
    rw [buildTwinsAux_mem]
    simp

/-! ## Alert evaluation lemmas -/

lemma buildAlerts_of_dtcs_ne (dtcs : List DTC) (w e p s : Bool) (h : dtcs ≠ []) :
    buildAlerts dtcs w e p s = dtcAlertClause dtcs :: lightAlertPart w e p s := by
  have hne : dtcs.isEmpty = false := by
    cases dtcs with
    | nil => exact absurd rfl h
    | cons a t => rfl
  unfold buildAlerts
  rw [hne]
  simp

lemma alertOf_of_dtcs_ne (dtcs : List DTC) (w e p s : Bool) (h : dtcs ≠ []) :
    alertOf dtcs w e p s
      = ("ALERTA: "
          ++ String.intercalate "; " (dtcAlertClause dtcs :: lightAlertPart w e p s),
         "red") := by
  unfold alertOf
  rw [buildAlerts_of_dtcs_ne dtcs w e p s h]
  rfl

/-- C3 (amended): a built twin with a non-empty DTC list gets a
`status_alert` that starts with the source's alert prefix `"ALERTA: "`
(the code's Spanish rendering of the spec's `"ALERT:"`), whose first
clause lists each DTC's SPN/FMI pair exactly once via `renderDTC`, in the
order the DTCs appear in the twin's (source) list, followed only by the
check-engine-light clause; the alert color is `"red"`. -/
theorem dtc_alert_message_structure (pt : String → Option String) (d : VehicleDetails)
    (L : List (JId × LocData)) (S : StatsMap) (M : List (String × MaintItem))
    (h : (process_vehicle_data pt d L S M).diagnostic_trouble_codes ≠ []) :
    (∃ rest, (process_vehicle_data pt d L S M).status_alert = "ALERTA: " ++ rest)
    ∧ (process_vehicle_data pt d L S M).status_alert
        = "ALERTA: " ++ String.intercalate "; "
            (dtcAlertClause (process_vehicle_data pt d L S M).diagnostic_trouble_codes
              :: lightAlertPart (process_vehicle_data pt d L S M).engine_check_light_warning
                  (process_vehicle_data pt d L S M).engine_check_light_emissions
                  (process_vehicle_data pt d L S M).engine_check_light_protect
                  (process_vehicle_data pt d L S M).engine_check_light_stop)
    ∧ (process_vehicle_data pt d L S M).alert_color = "red" := by
  have hd : (process_vehicle_data pt d L S M).diagnostic_trouble_codes
      = (maintFields (alFind M (rosterKey d))).dtcs := rfl
  have hw : (process_vehicle_data pt d L S M).engine_check_light_warning
      = (maintFields (alFind M (rosterKey d))).w := rfl
  have hee : (process_vehicle_data pt d L S M).engine_check_light_emissions
      = (maintFields (alFind M (rosterKey d))).e := rfl
  have hpp : (process_vehicle_data pt d L S M).engine_check_light_protect
      = (maintFields (alFind M (rosterKey d))).p := rfl
  have hss : (process_vehicle_data pt d L S M).engine_check_light_stop
      = (maintFields (alFind M (rosterKey d))).s := rfl
  have hst : (process_vehicle_data pt d L S M).status_alert
      = (alertOf (maintFields (alFind M (rosterKey d))).dtcs
          (maintFields (alFind M (rosterKey d))).w
          (maintFields (alFind M (rosterKey d))).e
          (maintFields (alFind M (rosterKey d))).p
          (maintFields (alFind M (rosterKey d))).s).1 := rfl
  have hcol : (process_vehicle_data pt d L S M).alert_color
      = (alertOf (maintFields (alFind M (rosterKey d))).dtcs
          (maintFields (alFind M (rosterKey d))).w
          (maintFields (alFind M (rosterKey d))).e
          (maintFields (alFind M (rosterKey d))).p
          (maintFields (alFind M (rosterKey d))).s).2 := rfl
  rw [hd] at h
  rw [hd, hw, hee, hpp, hss, hst, hcol]
  rw [alertOf_of_dtcs_ne _ _ _ _ _ h]
  exact ⟨⟨_, rfl⟩, rfl, rfl⟩

/-- Roster entry used by several concrete scenarios. -/
def dV : VehicleDetails := { id := some (.istr "V") }

/-- A concrete DTC. -/
def dtcWit : DTC := { spnId := some 100, fmiId := some 3, occurrenceCount := some 1 }

/-- A maintenance map giving vehicle `"V"` one DTC and no lights. -/
def maintWit : List (String × MaintItem) :=
  [("V", { id := some (.istr "V"),
           j1939 := some { diagnosticTroubleCodes := some [dtcWit] } })]

/-- C3 counterexample: the claim as stated requires the alert string of a
twin with a non-empty DTC list to start with the English prefix
`"ALERT:"`; the code emits `"ALERTA: "`, so at this concrete input the
status does not start with `"ALERT:"` (sixth character `A` vs `:`). -/
theorem alert_prefix_not_english_cex :
    (process_vehicle_data (fun _ => none) dV [] [] maintWit).diagnostic_trouble_codes ≠ []
    ∧ ¬ ∃ rest, (process_vehicle_data (fun _ => none) dV [] [] maintWit).status_alert
        = "ALERT:" ++ rest := by
  constructor
  · decide
  · rintro ⟨rest, hr⟩
    have hst : (process_vehicle_data (fun _ => none) dV [] [] maintWit).status_alert
        = "ALERTA: Fallas de motor (DTCs: SPN: 100 (FMI: 3))" := by decide
    rw [hst] at hr
    have hdata : ("ALERTA: Fallas de motor (DTCs: SPN: 100 (FMI: 3))").data
        = "ALERT:".data ++ rest.data := by
      rw [hr, String.data_append]
    have h6 := congrArg (fun l => l.take ("ALERT:".data).length) hdata
    simp only [List.take_left] at h6
    exact absurd h6 (by decide)

/-- C3 witness: the amended theorem applied at a concrete input (one DTC,
no lights on). -/
theorem dtc_alert_message_structure_witness :
    (process_vehicle_data (fun _ => none) dV [] [] maintWit).status_alert
        = "ALERTA: " ++ String.intercalate "; "
            (dtcAlertClause
                (process_vehicle_data (fun _ => none) dV [] [] maintWit).diagnostic_trouble_codes
              :: lightAlertPart
                  (process_vehicle_data (fun _ => none) dV [] [] maintWit).engine_check_light_warning
                  (process_vehicle_data (fun _ => none) dV [] [] maintWit).engine_check_light_emissions
                  (process_vehicle_data (fun _ => none) dV [] [] maintWit).engine_check_light_protect
                  (process_vehicle_data (fun _ => none) dV [] [] maintWit).engine_check_light_stop)
    ∧ (process_vehicle_data (fun _ => none) dV [] [] maintWit).alert_color = "red" :=
  ⟨(dtc_alert_message_structure (fun _ => none) dV [] [] maintWit (by decide)).2.1,
   (dtc_alert_message_structure (fun _ => none) dV [] [] maintWit (by decide)).2.2⟩

/-- C7: a roster vehicle whose id is absent from all three dynamic maps
gets a twin whose every dynamic field is the unavailable marker `"N/A"`
(a string, never the number zero and never the empty string), all four
check-engine-light flags false, an empty DTC list, the normal-operation
status `"OPERANDO NORMALMENTE"` and the green alert color. -/
theorem absent_vehicle_twin_defaults (pt : String → Option String) (d : VehicleDetails)
    (L : List (JId × LocData)) (S : StatsMap) (M : List (String × MaintItem))
    (hloc : locLookup L (rosterKey d) = none)
    (hstats : alFind S (rosterKey d) = none)
    (hmaint : alFind M (rosterKey d) = none) :
    (process_vehicle_data pt d L S M).latitude = PyVal.str "N/A"
    ∧ (process_vehicle_data pt d L S M).longitude = PyVal.str "N/A"
    ∧ (process_vehicle_data pt d L S M).speed_mph = PyVal.str "N/A"
    ∧ (process_vehicle_data pt d L S M).current_address = PyVal.str "N/A"
    ∧ (process_vehicle_data pt d L S M).gps_odometer_meters = PyVal.str "N/A"
    ∧ (process_vehicle_data pt d L S M).location_updated_at = PyVal.str "N/A"
    ∧ (process_vehicle_data pt d L S M).engine_hours = PyVal.str "N/A"
    ∧ (process_vehicle_data pt d L S M).fuel_perc_remaining = PyVal.str "N/A"
    ∧ (process_vehicle_data pt d L S M).engine_oil_pressure_kpa = PyVal.str "N/A"
    ∧ (process_vehicle_data pt d L S M).engine_coolant_temperature_c = PyVal.str "N/A"
    ∧ (process_vehicle_data pt d L S M).engine_rpm = PyVal.str "N/A"
    ∧ (process_vehicle_data pt d L S M).ambient_air_temperature_c = PyVal.str "N/A"
    ∧ (process_vehicle_data pt d L S M).engine_check_light_warning = false
    ∧ (process_vehicle_data pt d L S M).engine_check_light_emissions = false
    ∧ (process_vehicle_data pt d L S M).engine_check_light_protect = false
    ∧ (process_vehicle_data pt d L S M).engine_check_light_stop = false
    ∧ (process_vehicle_data pt d L S M).diagnostic_trouble_codes = []
    ∧ (process_vehicle_data pt d L S M).status_alert = "OPERANDO NORMALMENTE"
    ∧ (process_vehicle_data pt d L S M).alert_color = "green" := by
  simp [process_vehicle_data, hloc, hstats, hmaint, maintFields, alertOf, buildAlerts,
    lightAlertPart, lightClauses, alFind]

/-- C7 witness: the theorem applied at a concrete input (empty dynamic
maps). -/
theorem absent_vehicle_twin_defaults_witness :
    (process_vehicle_data (fun _ => none) dV [] [] []).latitude = PyVal.str "N/A"
    ∧ (process_vehicle_data (fun _ => none) dV [] [] []).longitude = PyVal.str "N/A"
    ∧ (process_vehicle_data (fun _ => none) dV [] [] []).speed_mph = PyVal.str "N/A"
    ∧ (process_vehicle_data (fun _ => none) dV [] [] []).current_address = PyVal.str "N/A"
    ∧ (process_vehicle_data (fun _ => none) dV [] [] []).gps_odometer_meters = PyVal.str "N/A"
    ∧ (process_vehicle_data (fun _ => none) dV [] [] []).location_updated_at = PyVal.str "N/A"
    ∧ (process_vehicle_data (fun _ => none) dV [] [] []).engine_hours = PyVal.str "N/A"
    ∧ (process_vehicle_data (fun _ => none) dV [] [] []).fuel_perc_remaining = PyVal.str "N/A"
    ∧ (process_vehicle_data (fun _ => none) dV [] [] []).engine_oil_pressure_kpa
        = PyVal.str "N/A"
    ∧ (process_vehicle_data (fun _ => none) dV [] [] []).engine_coolant_temperature_c
        = PyVal.str "N/A"
    ∧ (process_vehicle_data (fun _ => none) dV [] [] []).engine_rpm = PyVal.str "N/A"
    ∧ (process_vehicle_data (fun _ => none) dV [] [] []).ambient_air_temperature_c
        = PyVal.str "N/A"
    ∧ (process_vehicle_data (fun _ => none) dV [] [] []).engine_check_light_warning = false
    ∧ (process_vehicle_data (fun _ => none) dV [] [] []).engine_check_light_emissions = false
    ∧ (process_vehicle_data (fun _ => none) dV [] [] []).engine_check_light_protect = false
    ∧ (process_vehicle_data (fun _ => none) dV [] [] []).engine_check_light_stop = false
    ∧ (process_vehicle_data (fun _ => none) dV [] [] []).diagnostic_trouble_codes = []
    ∧ (process_vehicle_data (fun _ => none) dV [] [] []).status_alert
        = "OPERANDO NORMALMENTE"
    ∧ (process_vehicle_data (fun _ => none) dV [] [] []).alert_color = "green" :=
  absent_vehicle_twin_defaults (fun _ => none) dV [] [] [] rfl rfl rfl

/-! ## Normalizer pass-through and conversion -/

/-- Stats map carrying a fractional RPM reading for vehicle `"V"`. -/
def rpmStats : StatsMap := [("V", [("engineRpm", PyVal.num (1 / 8))])]

/-- C6 counterexample: the claim as stated requires the fractional RPM
source value `0.125` to be passed through with 2-decimal rounding; the
code stores the RPM value unrounded (src/app.py:407-411 has no `round`),
so the twin carries `0.125` itself, which differs from its 2-decimal
rounding. -/
theorem rpm_not_rounded_cex :
    (process_vehicle_data (fun _ => none) dV [] rpmStats []).engine_rpm = PyVal.num (1 / 8)
    ∧ pyRound2 (1 / 8) ≠ 1 / 8 := by
  constructor
  · rfl
  · rw [pyRound2_half_even (1 / 8) 12 (by norm_num) (by norm_num) (by norm_num) (by decide)]
    norm_num

/-- C6 (amended): the normalizer passes oil pressure and speed through
with 2-decimal rounding when the source value is numeric, passes RPM
through unchanged (no rounding), and emits the unavailable marker
`"N/A"` for each of the three when the source value is missing or not
numeric. -/
theorem passthrough_stats_rounding (pt : String → Option String) (d : VehicleDetails)
    (L : List (JId × LocData)) (S : StatsMap) (M : List (String × MaintItem)) :
    (∀ q : ℚ,
        alFind ((alFind S (rosterKey d)).getD []) "engineOilPressureKPa" = some (.num q) →
        (process_vehicle_data pt d L S M).engine_oil_pressure_kpa = .num (pyRound2 q))
    ∧ ((∀ q : ℚ,
          alFind ((alFind S (rosterKey d)).getD []) "engineOilPressureKPa" ≠ some (.num q)) →
        (process_vehicle_data pt d L S M).engine_oil_pressure_kpa = .str "N/A")
    ∧ (∀ q : ℚ,
        alFind ((alFind S (rosterKey d)).getD []) "engineRpm" = some (.num q) →
        (process_vehicle_data pt d L S M).engine_rpm = .num q)
    ∧ ((∀ q : ℚ,
          alFind ((alFind S (rosterKey d)).getD []) "engineRpm" ≠ some (.num q)) →
        (process_vehicle_data pt d L S M).engine_rpm = .str "N/A")
    ∧ (∀ (l : LocData) (q : ℚ), locLookup L (rosterKey d) = some l →
        l.speed = some (.num q) →
        (process_vehicle_data pt d L S M).speed_mph = .num (pyRound2 q))
    ∧ (∀ l : LocData, locLookup L (rosterKey d) = some l →
        (∀ q : ℚ, l.speed ≠ some (.num q)) →
        (process_vehicle_data pt d L S M).speed_mph = .str "N/A")
    ∧ (locLookup L (rosterKey d) = none →
        (process_vehicle_data pt d L S M).speed_mph = .str "N/A") := by
  refine ⟨?_, ?_, ?_, ?_, ?_, ?_, ?_⟩
  · intro q hq
    simp [process_vehicle_data, hq]
  · intro hq
    rcases hfind : alFind ((alFind S (rosterKey d)).getD []) "engineOilPressureKPa" with _ | v
    · simp [process_vehicle_data, hfind]
    · cases v with
      | num q => exact absurd hfind (hq q)
      | str s => simp [process_vehicle_data, hfind]
      | null => simp [process_vehicle_data, hfind]
  · intro q hq
    simp [process_vehicle_data, hq]
  · intro hq
    rcases hfind : alFind ((alFind S (rosterKey d)).getD []) "engineRpm" with _ | v
    · simp [process_vehicle_data, hfind]
    · cases v with
      | num q => exact absurd hfind (hq q)
      | str s => simp [process_vehicle_data, hfind]
      | null => simp [process_vehicle_data, hfind]
  · intro l q hl hspd
    simp [process_vehicle_data, hl, hspd]
  · intro l hl hspd
    rcases hfind : l.speed with _ | v
    · simp [process_vehicle_data, hl, hfind]
    · cases v with
      | num q => exact absurd hfind (hspd q)
      | str s => simp [process_vehicle_data, hl, hfind]
      | null => simp [process_vehicle_data, hl, hfind]
  · intro hl
    simp [process_vehicle_data, hl]

/-- Stats map carrying an oil-pressure reading for vehicle `"V"`. -/
def oilStats : StatsMap := [("V", [("engineOilPressureKPa", PyVal.num 50)])]

/-- C6 witness: the amended theorem applied at a concrete input. -/
theorem passthrough_stats_rounding_witness :
    (process_vehicle_data (fun _ => none) dV [] oilStats []).engine_oil_pressure_kpa
      = PyVal.num (pyRound2 50) :=
  (passthrough_stats_rounding (fun _ => none) dV [] oilStats []).1 50 rfl

/-- C8: the normalizer converts coolant and ambient temperature from
milli-Celsius to Celsius by dividing by 1000 and rounding to 2 decimals,
and engine run-time from seconds to hours by dividing by 3600 and
rounding to 2 decimals, whenever the source value is numeric. -/
theorem temperature_and_hours_conversion (pt : String → Option String) (d : VehicleDetails)
    (L : List (JId × LocData)) (S : StatsMap) (M : List (String × MaintItem)) :
    (∀ q : ℚ,
        alFind ((alFind S (rosterKey d)).getD []) "engineCoolantTemperatureMilliC"
            = some (.num q) →
        (process_vehicle_data pt d L S M).engine_coolant_temperature_c
            = .num (pyRound2 (q / 1000)))
    ∧ (∀ q : ℚ,
        alFind ((alFind S (rosterKey d)).getD []) "ambientAirTemperatureMilliC"
            = some (.num q) →
        (process_vehicle_data pt d L S M).ambient_air_temperature_c
            = .num (pyRound2 (q / 1000)))
    ∧ (∀ q : ℚ,
        alFind ((alFind S (rosterKey d)).getD []) "obdEngineSeconds" = some (.num q) →
        (process_vehicle_data pt d L S M).engine_hours = .num (pyRound2 (q / 3600))) := by
  refine ⟨?_, ?_, ?_⟩
  · intro q hq
    simp [process_vehicle_data, hq]
  · intro q hq
    simp [process_vehicle_data, hq]
  · intro q hq
    simp [process_vehicle_data, hq]

/-- Stats map carrying the spec's example readings: coolant 85000 milli-C
and 7384 engine seconds. -/
def convStats : StatsMap :=
  [("V", [("engineCoolantTemperatureMilliC", PyVal.num 85000),
          ("obdEngineSeconds", PyVal.num 7384)])]

/-- C8 witness: the theorem applied at the spec's example values --
coolant 85000 milli-C yields 85 C and 7384 engine seconds yield 2.05
engine hours. -/
theorem temperature_and_hours_conversion_witness :
    (process_vehicle_data (fun _ => none) dV [] convStats []).engine_coolant_temperature_c
        = PyVal.num 85
    ∧ (process_vehicle_data (fun _ => none) dV [] convStats []).engine_hours
        = PyVal.num (41 / 20) := by
  constructor
  · have h := (temperature_and_hours_conversion (fun _ => none) dV [] convStats []).1
      85000 rfl
    rw [h]
    exact congrArg PyVal.num
      (by rw [pyRound2_of_lt _ 8500 (by norm_num) (by norm_num) (by norm_num)]; norm_num)
  · have h := (temperature_and_hours_conversion (fun _ => none) dV [] convStats []).2.2
      7384 rfl
    rw [h]
    exact congrArg PyVal.num
      (by rw [pyRound2_of_lt _ 205 (by norm_num) (by norm_num) (by norm_num)]; norm_num)

/-! ## Cross-source joins keyed on the string form of the id -/

/-- A maintenance response item whose id arrives as a JSON number. -/
def maintItemNum (n : Int) : MaintItem := { id := some (.inum n) }

/-- A maintenance response item whose id arrives as a JSON string,
carrying a DTC list. -/
def maintItemStr (n : Int) (l : List DTC) : MaintItem :=
  { id := some (.istr (toString n)), j1939 := some { diagnosticTroubleCodes := some l } }

/-- A roster entry whose id arrives as a JSON number. -/
def rosterNum (n : Int) : VehicleDetails := { id := some (.inum n) }

/-- C10: cross-source joining is keyed on the string form of the vehicle
id.  First conjunct: the maintenance fetcher coerces a numeric response
id `n` with `str()` before matching, so it joins with the same id held as
a string in the target set.  Second conjunct: the module-level roster ids
are coerced to strings (`str(v.get('id'))`) before the dynamic fetch.
Third conjunct: the twin builder looks the maintenance map up with
`str()` of the (numeric) roster id, so a record keyed by the string form
joins and its DTC list reaches the twin. -/
theorem string_id_join_across_sources (n : Int) (l : List DTC) (targets : List String)
    (fuel : Nat) (pt : String → Option String) (hmem : toString n ∈ targets) :
    get_all_vehicle_maintenance_data
        (serverOfPages [{ items := [maintItemNum n], endCursor := none }]) targets (fuel + 1)
      = some [(toString n, maintItemNum n)]
    ∧ moduleVehicleIds [rosterNum n] = [toString n]
    ∧ ∃ g : Gemelo,
        alFind (buildTwins pt [rosterNum n] [] [] [(toString n, maintItemStr n l)])
            (toString n) = some g
        ∧ g.diagnostic_trouble_codes = l := by
  refine ⟨?_, rfl, ?_⟩
  · have hmem' : toString n ∈ targets.dedup := List.mem_dedup.mpr hmem
    simp [get_all_vehicle_maintenance_data, getAllMaintAux, serverOfPages, processPageItems,
      cursorTruthy, maintItemNum, pyStrOpt, pyStr, hmem']
  · refine ⟨process_vehicle_data pt (rosterNum n) [] [] [(toString n, maintItemStr n l)],
      ?_, ?_⟩
    · have hkey : (process_vehicle_data pt (rosterNum n) [] [] [(toString n,
          maintItemStr n l)]).vehicle_id = toString n := rfl
      simp [buildTwins, buildTwinsAux, alInsert, alFind, hkey]
    · have hdtcs : (process_vehicle_data pt (rosterNum n) [] [] [(toString n,
          maintItemStr n l)]).diagnostic_trouble_codes
          = (maintFields (alFind [(toString n, maintItemStr n l)]
              (rosterKey (rosterNum n)))).dtcs := rfl
      rw [hdtcs]
      have hrk : rosterKey (rosterNum n) = toString n := rfl
      rw [hrk]
      simp [alFind, maintFields, maintItemStr]

/-- C10 witness: the theorem applied at a concrete input. -/
theorem string_id_join_across_sources_witness :
    get_all_vehicle_maintenance_data
        (serverOfPages [{ items := [maintItemNum 7], endCursor := none }])
        [toString (7 : Int)] 1
      = some [(toString (7 : Int), maintItemNum 7)]
    ∧ moduleVehicleIds [rosterNum 7] = [toString (7 : Int)] :=
  ⟨(string_id_join_across_sources 7 [] [toString (7 : Int)] 0 (fun _ => none)
      (by simp)).1,
   (string_id_join_across_sources 7 [] [toString (7 : Int)] 0 (fun _ => none)
      (by simp)).2.1⟩
